import Mathlib

/-!
Shallow embedding of `clf2tab.cpp` (Jach/clf2tab): a converter from Apache
Common/Combined Log Format lines to tab-separated records.

The embedding follows the source file function by function:
* `logtimeToUnix` (src lines 40-65), including a model of glibc
  `strptime` on the fixed format `%d/%b/%Y:%H:%M:%S %Z` and of
  `mktime` with `tm_isdst = 0` (the host standard-time offset
  `timezone` is passed explicitly as the parameter `tz`);
* the `State` enum (lines 67-79) and the validators `is_IP` (81-98),
  `is_numeric` (100-108), `is_user` (110-122), `validate` (124-195);
* the per-line scanner `scanCLF` (213-286), modelled as a fold
  `scanLoop`/`scanStep` over the characters of the line, returning
  `Except String (List String)`: `Except.error e` models a thrown
  `const char*` reaching `main`'s catch block (one diagnostic, no
  output record), `Except.ok tokens` models the record printed by the
  final loop of `scanCLF` (one output record);
* the driver loop of `main` (288-304), modelled as `processStream`.

Global state of the program (`skip_validation` and the libc `timezone`
variable) is made explicit as the parameters `b`/`skip` and `tz`.
-/

namespace Clf2tab

/-! ### struct tm fields set by strptime on this format -/

/-- The fields of `struct tm` that `strptime` fills for the format
`%d/%b/%Y:%H:%M:%S %Z`.  `mon` is 0-based as in `tm_mon`; `year` is the
full year (the parsed `%Y` value, i.e. `tm_year + 1900`). -/
structure TmFields where
  mday : Nat
  mon  : Nat
  year : Nat
  hour : Nat
  minute : Nat
  sec  : Nat
deriving DecidableEq, Repr

/-! ### glibc strptime model for the format "%d/%b/%Y:%H:%M:%S %Z" -/

/-- Space skipping performed by glibc `get_number` before reading digits. -/
def skipSpaces : List Char → List Char
  | ' ' :: cs => skipSpaces cs
  | cs => cs

/-- The read loop of glibc's `get_number` macro: having read a first digit
into `val`, keep consuming digits while the remaining width allows it and
`val * 10` does not exceed the upper bound. -/
def getNumberLoop (hi : Nat) : Nat → Nat → List Char → Nat × List Char
  | 0, val, cs => (val, cs)
  | n + 1, val, cs =>
    match cs with
    | c :: rest =>
      if val * 10 ≤ hi ∧ c.isDigit then
        getNumberLoop hi n (val * 10 + (c.toNat - 48)) rest
      else (val, c :: rest)
    | [] => (val, [])

/-- glibc `get_number(from, to, n)`: skip spaces, require a digit, read up
to `width` digits, and require the value to lie in `[lo, hi]`. -/
def getNumber (lo hi width : Nat) (cs : List Char) : Option (Nat × List Char) :=
  match skipSpaces cs with
  | c :: rest =>
    if c.isDigit then
      let p := getNumberLoop hi (width - 1) (c.toNat - 48) rest
      if lo ≤ p.1 ∧ p.1 ≤ hi then some p else none
    else none
  | [] => none

/-- A literal (non-whitespace) character of the format string must match
the next input character exactly. -/
def matchChar (c : Char) (cs : List Char) : Option (List Char) :=
  match cs with
  | c' :: rest => if c' = c then some rest else none
  | [] => none

/-- Case-insensitive prefix match (glibc `match_string`, which uses
`strncasecmp`); on success returns the rest of the input. -/
def matchCI : List Char → List Char → Option (List Char)
  | [], cs => some cs
  | _ :: _, [] => none
  | m :: ms, c :: cs => if m.toLower = c.toLower then matchCI ms cs else none

/-- The C-locale month names tried by `%b`: for each index, glibc tries
the full name first, then the abbreviation. -/
def monthTable : List (Nat × String × String) :=
  [(0, "January", "Jan"), (1, "February", "Feb"), (2, "March", "Mar"),
   (3, "April", "Apr"), (4, "May", "May"), (5, "June", "Jun"),
   (6, "July", "Jul"), (7, "August", "Aug"), (8, "September", "Sep"),
   (9, "October", "Oct"), (10, "November", "Nov"), (11, "December", "Dec")]

/-- Month matching of `%b`: try each month in order, full name first,
then abbreviation; yields the 0-based month index. -/
def matchMonthGo : List (Nat × String × String) → List Char → Option (Nat × List Char)
  | [], _ => none
  | (i, full, ab) :: rest, cs =>
    match matchCI full.data cs with
    | some r => some (i, r)
    | none =>
      match matchCI ab.data cs with
      | some r => some (i, r)
      | none => matchMonthGo rest cs

/-- glibc `strptime` on the fixed format `"%d/%b/%Y:%H:%M:%S %Z"`.
Numeric bounds are glibc's: `%d` in `[1,31]` (width 2), `%Y` in
`[0,9999]` (width 4), `%H` in `[0,23]`, `%M` in `[0,59]`, `%S` in
`[0,61]` (width 2 each).  The trailing `" %Z"`: whitespace in the format
skips any run of spaces, and glibc ignores `%Z` entirely (it consumes
nothing and never fails), so trailing input is irrelevant — `strptime`
succeeds whenever the date-time prefix parses, exactly as the source
relies on (it only compares the result against `NULL`). -/
def strptimeCLF (cs0 : List Char) : Option TmFields := do
  let (d, cs1) ← getNumber 1 31 2 cs0
  let cs2 ← matchChar '/' cs1
  let (mon, cs3) ← matchMonthGo monthTable cs2
  let cs4 ← matchChar '/' cs3
  let (y, cs5) ← getNumber 0 9999 4 cs4
  let cs6 ← matchChar ':' cs5
  let (h, cs7) ← getNumber 0 23 2 cs6
  let cs8 ← matchChar ':' cs7
  let (mi, cs9) ← getNumber 0 59 2 cs8
  let cs10 ← matchChar ':' cs9
  let (s, _cs11) ← getNumber 0 61 2 cs10
  pure ⟨d, mon, y, h, mi, s⟩

/-! ### mktime model -/

/-- Days from 1970-01-01 to year `y`, month `m` (1-based), day `d`
(the civil-from-days algorithm used by C libraries; `d` beyond the end
of the month rolls over into the next month, exactly as `mktime`
normalizes out-of-range `tm_mday`). -/
def daysFromCivil (y : Int) (m : Nat) (d : Nat) : Int :=
  let y' : Int := if m ≤ 2 then y - 1 else y
  let era : Int := Int.fdiv y' 400
  let yoe : Int := y' - era * 400
  let mp : Nat := if 2 < m then m - 3 else m + 9
  let doy : Int := (153 * (mp : Int) + 2) / 5 + (d : Int) - 1
  let doe : Int := yoe * 365 + yoe / 4 - yoe / 100 + doy
  era * 146097 + doe - 719468

/-- The epoch value of the calendar fields read as UTC. -/
def civilToEpoch (f : TmFields) : Int :=
  86400 * daysFromCivil (f.year : Int) (f.mon + 1) f.mday
    + 3600 * (f.hour : Int) + 60 * (f.minute : Int) + (f.sec : Int)

/-- `mktime` with `tm_isdst = 0`: the fields are interpreted as local
standard time, so the result is the UTC epoch value of the fields plus
the host's standard-time offset west of UTC (the libc global
`timezone`, here the parameter `tz`). -/
def mktimeModel (f : TmFields) (tz : Int) : Int :=
  civilToEpoch f + tz

/-! ### logtimeToUnix (src 40-65) -/

/-- `std::string::operator[]` on a const string: the character at index
`i`, with the null character at `i = size()` (indices beyond that are
undefined behaviour in the source; the model extends with NUL, and no
theorem below depends on that region). -/
def charAt (s : String) (i : Nat) : Char := s.data.getD i (Char.ofNat 0)

/-- C `char` minus `'0'` as an `int`. -/
def digitVal (c : Char) : Int := (c.toNat : Int) - 48

/-- Model of `logtimeToUnix` (src 40-65).  `tz` is the libc global
`timezone` (host standard-time offset, seconds west of UTC).  Mirrors
the source exactly: on `strptime` failure return `"-"`; otherwise read
the sign at index 21 and the four offset digits at indices 22-25,
compute `off_secs`, take `mktime` of the parsed fields with DST forced
off, return `"-"` if it is `-1`, subtract `timezone`, add `off_secs`,
and print the result in decimal. -/
def logtimeToUnix (tz : Int) (logtime : String) : String :=
  match strptimeCLF logtime.data with
  | none => "-"
  | some tm =>
    let hours : Int := 10 * digitVal (charAt logtime 22) + digitVal (charAt logtime 23)
    let mins : Int := 10 * digitVal (charAt logtime 24) + digitVal (charAt logtime 25)
    let off0 : Int := 60 * 60 * hours + 60 * mins
    let off_secs : Int := if charAt logtime 21 = '-' then -off0 else off0
    let t : Int := mktimeModel tm tz
    if t = -1 then "-"
    else toString (t - tz + off_secs)

/-! ### State enum (src 67-79) -/

/-- The scanner states, in the order of the C++ enum. -/
inductive State where
  | IP
  | CLIENT
  | USER
  | TIME
  | URL_METHOD
  | URL_PATH
  | URL_PROTOCOL
  | CODE
  | CONTENT
  | REFERER
  | AGENT
deriving DecidableEq, Repr

/-- Numeric value of each enum constant (as in the C++ enum). -/
def stateIdx : State → Nat
  | .IP => 0
  | .CLIENT => 1
  | .USER => 2
  | .TIME => 3
  | .URL_METHOD => 4
  | .URL_PATH => 5
  | .URL_PROTOCOL => 6
  | .CODE => 7
  | .CONTENT => 8
  | .REFERER => 9
  | .AGENT => 10

/-- The successor of each state in the fixed forward order (what a
successful `validate` assigns; `AGENT` stays put). -/
def stateSucc : State → State
  | .IP => .CLIENT
  | .CLIENT => .USER
  | .USER => .TIME
  | .TIME => .URL_METHOD
  | .URL_METHOD => .URL_PATH
  | .URL_PATH => .URL_PROTOCOL
  | .URL_PROTOCOL => .CODE
  | .CODE => .CONTENT
  | .CONTENT => .REFERER
  | .REFERER => .AGENT
  | .AGENT => .AGENT

/-- The five states handled by the first (space/comma delimited) arm of
the scanner's switch. -/
def simpleState : State → Bool
  | .IP | .CLIENT | .USER | .CODE | .CONTENT => true
  | _ => false

/-- The five states whose scanner arms read `*(it-1)`. -/
def quoteState : State → Bool
  | .URL_METHOD | .URL_PATH | .URL_PROTOCOL | .REFERER | .AGENT => true
  | _ => false

/-! ### Validators (src 81-122) -/

/-- The signed value of a 16-bit `short` holding the bit pattern
`n % 2^16` (two's complement, as gcc/clang convert out-of-range values
back to `short`). -/
def toShort (n : Nat) : Int :=
  if n % 65536 < 32768 then ((n % 65536 : Nat) : Int)
  else ((n % 65536 : Nat) : Int) - 65536

/-- The scan loop of `is_IP`, counting dots and length.  The source
declares `short dots` and `short len`, so each `++` wraps modulo
2^16 (the counters are kept as the 16-bit bit pattern), and the final
comparisons `dots == 3` and `len <= 15` promote the shorts to `int`,
i.e. compare their signed values: a 40000-character token has
`len = -25536 <= 15`. -/
def ipLoop : List Char → Nat → Nat → Bool
  | [], dots, len => toShort dots == 3 && decide (toShort len ≤ 15)
  | c :: cs, dots, len =>
    if !(c.isDigit || c == '.') then false
    else ipLoop cs (if c == '.' then (dots + 1) % 65536 else dots) ((len + 1) % 65536)

/-- `is_IP` (src 81-98): the first character being `'-'` short-circuits
to `true`; otherwise every character must be a digit or a dot, with the
16-bit dot and length counters satisfying `dots == 3` and `len <= 15`
(for tokens shorter than 32768 characters: exactly three dots and at
most 15 characters). -/
def is_IP (str : String) : Bool :=
  if charAt str 0 == '-' then true
  else ipLoop str.data 0 0

/-- The scan loop of `is_numeric`. -/
def numLoop : List Char → Bool
  | [] => true
  | c :: cs => if !c.isDigit && c != '-' then false else numLoop cs

/-- `is_numeric` (src 100-108): every character is a digit or `'-'`
(a `'-'` is tolerated anywhere, so `"-"` itself is numeric). -/
def is_numeric (str : String) : Bool := numLoop str.data

/-- The loop over the tail characters of `is_user`. -/
def userRest : List Char → Bool
  | [] => true
  | c :: cs =>
    if c.isAlphanum || c == '_' || c == '-' || c == '@' || c == '.' then userRest cs
    else false

/-- `is_user` (src 110-122): first character a letter, `'_'`, or a lone
`'-'`; remaining characters alphanumeric, `'_'`, `'-'`, `'@'` or `'.'`. -/
def is_user (str : String) : Bool :=
  match str.data with
  | [] => false
  | c :: cs =>
    if c.isAlpha || c == '_' || (c == '-' && cs.isEmpty) then userRest cs
    else false

/-! ### validate (src 124-195) -/

/-- `validate` (src 124-195).  The C++ mutates `state` and throws a
`const char*` on failure; the model returns the new state in
`Except.ok` and the thrown message in `Except.error`.  `skip` is the
global `skip_validation`; `IF_VALID(X)` is `if (skip_validation || X)`
with C short-circuit, so with `skip = true` the condition is never
evaluated. -/
def validate (skip : Bool) (state : State) (token : String) : Except String State :=
  match state with
  | .IP =>
    if skip || is_IP token then .ok .CLIENT
    else .error "IP is invalid."
  | .CLIENT =>
    if skip || token == "-" then .ok .USER
    else .error "Client identity unsupported."
  | .USER =>
    if skip || is_user token then .ok .TIME
    else .error "USER is invalid."
  | .TIME =>
    if skip || is_numeric token then .ok .URL_METHOD
    else .error "TIME is not numeric."
  | .URL_METHOD => .ok .URL_PATH
  | .URL_PATH =>
    if skip || (charAt token 0 == '/') then .ok .URL_PROTOCOL
    else .error "PATH does not begin with forward slash."
  | .URL_PROTOCOL => .ok .CODE
  | .CODE =>
    if skip || is_numeric token then .ok .CONTENT
    else .error "CODE is not numeric."
  | .CONTENT =>
    if skip || is_numeric token then .ok .REFERER
    else .error "CONTENT is not numeric."
  | .REFERER => .ok .AGENT
  | .AGENT => .ok .AGENT

/-! ### scanCLF (src 213-286) -/

/-- The `validate; tokens.push_back(token); token.clear();` sequence of
the scanner: on success the new state with cleared token and the token
appended; a throw aborts the whole line. -/
def commitToken (b : Bool) (state : State) (token : List Char) (tokens : List String) :
    Except String (State × List Char × List String) :=
  match validate b state (String.mk token) with
  | .ok s' => .ok (s', [], tokens ++ [String.mk token])
  | .error e => .error e

/-- One iteration of the scanner's `for` loop (src 218-278) on character
`c`.  `isLast` is `it + 1 == line.end()`; `prev` is the character before
`it` (`none` at the first character, where the source's `*(it-1)` would
read out of bounds — the model substitutes NUL there, and the theorem
for C10 shows the quote arms never run with `prev = none`). -/
def scanStep (b : Bool) (tz : Int) (c : Char) (isLast : Bool) (prev : Option Char)
    (state : State) (token : List Char) (tokens : List String) :
    Except String (State × List Char × List String) :=
  match state with
  | .IP | .CLIENT | .USER | .CODE | .CONTENT =>
    let afterChain : Except String (State × List Char × List String) :=
      if c ≠ ' ' ∧ c ≠ ',' then .ok (state, token ++ [c], tokens)
      else if c = ',' ∧ state = .IP then .ok (state, [], tokens ++ [String.mk token])
      else if token ≠ [] then commitToken b state token tokens
      else .ok (state, token, tokens)
    match afterChain with
    | .error e => .error e
    | .ok (s', t', ts') =>
      if isLast ∧ t' ≠ [] then .ok (s', t', ts' ++ [String.mk t'])
      else .ok (s', t', ts')
  | .TIME =>
    if c ≠ '[' ∧ c ≠ ']' then .ok (state, token ++ [c], tokens)
    else if c = ']' then
      match validate b state (logtimeToUnix tz (String.mk token)) with
      | .ok s' => .ok (s', [], tokens ++ [logtimeToUnix tz (String.mk token)])
      | .error e => .error e
    else .ok (state, token, tokens)
  | .URL_METHOD | .URL_PATH | .URL_PROTOCOL =>
    if c ≠ '"' ∨ prev.getD (Char.ofNat 0) = '\\' then
      if c ≠ ' ' then .ok (state, token ++ [c], tokens)
      else if token ≠ [] then commitToken b state token tokens
      else .ok (state, token, tokens)
    else if token ≠ [] then commitToken b state token tokens
    else .ok (state, token, tokens)
  | .REFERER | .AGENT =>
    if (c ≠ '"' ∨ prev.getD (Char.ofNat 0) = '\\') ∧ (c ≠ ' ' ∨ token ≠ []) then
      .ok (state, token ++ [c], tokens)
    else if token ≠ [] then commitToken b state token tokens
    else .ok (state, token, tokens)

/-- The scanner's `for` loop over the rest of the line. -/
def scanLoop (b : Bool) (tz : Int) :
    List Char → Option Char → State → List Char → List String → Except String (List String)
  | [], _, _, _, tokens => .ok tokens
  | c :: rest, prev, state, token, tokens =>
    match scanStep b tz c rest.isEmpty prev state token tokens with
    | .error e => .error e
    | .ok (s', t', ts') => scanLoop b tz rest (some c) s' t' ts'

/-- `scanCLF` (src 213-286): scan one line starting in state `IP` with
empty token and empty record.  `Except.ok tokens` is the record printed
to stdout; `Except.error e` is the thrown message caught in `main`. -/
def scanCLF (b : Bool) (tz : Int) (line : String) : Except String (List String) :=
  scanLoop b tz line.data none .IP [] []

/-- The `(state, prev)` configuration at the start of each loop
iteration, along the run of the scanner (the trace stops where a
validation failure aborts the line). -/
def scanTrace (b : Bool) (tz : Int) :
    List Char → Option Char → State → List Char → List String → List (State × Option Char)
  | [], _, _, _, _ => []
  | c :: rest, prev, state, token, tokens =>
    (state, prev) ::
      match scanStep b tz c rest.isEmpty prev state token tokens with
      | .error _ => []
      | .ok (s', t', ts') => scanTrace b tz rest (some c) s' t' ts'

/-- The driver loop of `main` (src 296-302): each line is scanned
independently; there is no state carried from one line to the next. -/
def processStream (b : Bool) (tz : Int) : List String → List (Except String (List String))
  | [] => []
  | l :: ls => scanCLF b tz l :: processStream b tz ls

/-! ### Spec-worded comparator for the address validator -/

/-- The address predicate exactly as the spec words it (for comparison
with the source's `is_IP`): token is exactly `"-"`, or consists only of
digits and `'.'`, contains exactly three `'.'`, and is at most 15
characters long. -/
def is_address_spec (s : String) : Bool :=
  s == "-" ||
    (s.data.all (fun c => c.isDigit || c == '.') &&
     s.data.count '.' == 3 && decide (s.data.length ≤ 15))

/-! ## Theorems -/

/-- Helper: the epoch value of the parsed fields of the first C1 input. -/
theorem civil_A_eval : civilToEpoch ⟨4, 3, 2012, 10, 37, 29⟩ = 1333535849 := rfl

/-- Helper: the epoch value of the parsed fields of the second C1 input. -/
theorem civil_B_eval : civilToEpoch ⟨4, 3, 2012, 15, 37, 29⟩ = 1333553849 := rfl

/-- Helper: value of `logtimeToUnix` on `04/Apr/2012:10:37:29 -0500`,
for any realistic host timezone offset. -/
theorem logtime_eval_A (tz : Int) (h1 : -86400 ≤ tz) (h2 : tz ≤ 86400) :
    logtimeToUnix tz "04/Apr/2012:10:37:29 -0500" = "1333517849" := by
  have hstep : logtimeToUnix tz "04/Apr/2012:10:37:29 -0500" =
      (if mktimeModel ⟨4, 3, 2012, 10, 37, 29⟩ tz = -1 then "-"
       else toString (mktimeModel ⟨4, 3, 2012, 10, 37, 29⟩ tz - tz + -18000)) := rfl
  have hm : mktimeModel ⟨4, 3, 2012, 10, 37, 29⟩ tz = 1333535849 + tz := by
    unfold mktimeModel
    rw [civil_A_eval]
  rw [hstep, hm, if_neg (by omega)]
  have harg : (1333535849 : Int) + tz - tz + -18000 = 1333517849 := by omega
  rw [harg]
  rfl

/-- Helper: value of `logtimeToUnix` on `04/Apr/2012:15:37:29 +0000`,
for any realistic host timezone offset. -/
theorem logtime_eval_B (tz : Int) (h1 : -86400 ≤ tz) (h2 : tz ≤ 86400) :
    logtimeToUnix tz "04/Apr/2012:15:37:29 +0000" = "1333553849" := by
  have hstep : logtimeToUnix tz "04/Apr/2012:15:37:29 +0000" =
      (if mktimeModel ⟨4, 3, 2012, 15, 37, 29⟩ tz = -1 then "-"
       else toString (mktimeModel ⟨4, 3, 2012, 15, 37, 29⟩ tz - tz + 0)) := rfl
  have hm : mktimeModel ⟨4, 3, 2012, 15, 37, 29⟩ tz = 1333553849 + tz := by
    unfold mktimeModel
    rw [civil_B_eval]
  rw [hstep, hm, if_neg (by omega)]
  have harg : (1333553849 : Int) + tz - tz + 0 = 1333553849 := by omega
  rw [harg]
  rfl

/-- C1: the spec demands that `04/Apr/2012:10:37:29 -0500` and
`04/Apr/2012:15:37:29 +0000` normalize to the identical epoch-seconds
string.  The code instead ADDS the stated signed offset (`t += off_secs`)
where converting local time to UTC requires subtracting it, so for every
realistic host timezone offset the two inputs normalize to `1333517849`
and `1333553849` respectively — 36000 seconds apart, never equal.  (The
second value is the correct epoch of the instant; the first is 10 hours
off.)  This contradicts the program's own stated output of
unix-epoch-seconds, so the claim is right and the code is wrong. -/
theorem c1_logtime_offset_divergence (tz : Int) (h1 : -86400 ≤ tz) (h2 : tz ≤ 86400) :
    logtimeToUnix tz "04/Apr/2012:10:37:29 -0500" = "1333517849" ∧
    logtimeToUnix tz "04/Apr/2012:15:37:29 +0000" = "1333553849" ∧
    logtimeToUnix tz "04/Apr/2012:10:37:29 -0500" ≠
      logtimeToUnix tz "04/Apr/2012:15:37:29 +0000" := by
  have hA := logtime_eval_A tz h1 h2
  have hB := logtime_eval_B tz h1 h2
  refine ⟨hA, hB, ?_⟩
  rw [hA, hB]
  decide

/-- Witness for C1 at the concrete host offset 18000 (US Eastern
standard time, the value of the libc `timezone` global there). -/
theorem c1_witness :
    logtimeToUnix 18000 "04/Apr/2012:10:37:29 -0500" = "1333517849" ∧
    logtimeToUnix 18000 "04/Apr/2012:15:37:29 +0000" = "1333553849" ∧
    logtimeToUnix 18000 "04/Apr/2012:10:37:29 -0500" ≠
      logtimeToUnix 18000 "04/Apr/2012:15:37:29 +0000" :=
  c1_logtime_offset_divergence 18000 (by decide) (by decide)

/-- C2 counterexample: the bracketed timestamp `x` does not match the
shape `DD/Mon/YYYY:HH:MM:SS sign+4-digit-offset`, so per the claim the
strict-mode line should be rejected with the time-not-numeric failure.
In the code, the failed normalization yields the token `"-"`, and
`is_numeric "-"` is `true` (the loop tolerates `'-'` anywhere), so the
line is ACCEPTED and `"-"` is committed as the timestamp field — no
rejection ever happens. -/
theorem c2_counterexample :
    logtimeToUnix 0 "x" = "-" ∧ is_numeric "-" = true ∧
    scanCLF false 0 "1.2.3.4 - - [x] \"GET / HTTP/1.0\" 200 0" =
      .ok ["1.2.3.4", "-", "-", "-", "GET", "/", "HTTP/1.0", "200", "0"] :=
  ⟨rfl, rfl, rfl⟩

/-- C2 (amended): for every bracketed timestamp string whose date-time
prefix fails the (lenient) `strptime` parse, normalization fails and
returns the token `"-"`; the Timestamp-state validator then ACCEPTS
`"-"` as numeric (`is_numeric` tolerates `'-'`), advancing the state,
so the line is not rejected — `"-"` is committed as the timestamp. -/
theorem c2_normalization_failure_is_accepted (tz : Int) (s : String)
    (h : strptimeCLF s.data = none) :
    logtimeToUnix tz s = "-" ∧
    validate false .TIME (logtimeToUnix tz s) = .ok .URL_METHOD := by
  have h1 : logtimeToUnix tz s = "-" := by
    unfold logtimeToUnix
    rw [h]
  refine ⟨h1, ?_⟩
  rw [h1]
  rfl

/-- Witness for C2's amended theorem at the concrete input `x`. -/
theorem c2_witness :
    logtimeToUnix 0 "x" = "-" ∧
    validate false .TIME (logtimeToUnix 0 "x") = .ok .URL_METHOD :=
  c2_normalization_failure_is_accepted 0 "x" rfl

/-- C3 counterexample: `is_IP` short-circuits to `true` whenever the
FIRST character is `'-'`, so the non-address token `-x` is accepted,
while the claim (token exactly `-`, or digits/dots with three dots and
length at most 15) rejects it. -/
theorem c3_counterexample :
    is_IP "-x" = true ∧ is_address_spec "-x" = false :=
  ⟨rfl, rfl⟩

/-- Helper: reducing the accumulator modulo 2^16 before adding more
does not change the signed-short reading of the total. -/
theorem toShort_mod_add (a k : Nat) : toShort (a % 65536 + k) = toShort (a + k) := by
  unfold toShort
  rw [Nat.mod_add_mod]

/-- Helper: characterization of the counting loop of `is_IP`: all
characters are digits or dots, and the 16-bit signed readings of the
final dot and length counters are 3 and at most 15. -/
theorem ipLoop_iff : ∀ (cs : List Char) (dots len : Nat),
    ipLoop cs dots len = true ↔
      ((∀ c ∈ cs, c.isDigit = true ∨ c = '.') ∧
       toShort (dots + cs.count '.') = 3 ∧ toShort (len + cs.length) ≤ 15) := by
  intro cs
  induction cs with
  | nil =>
    intro dots len
    simp [ipLoop]
  | cons c cs ih =>
    intro dots len
    by_cases hc : (c.isDigit || c == '.') = true
    · have hstep : ipLoop (c :: cs) dots len =
          ipLoop cs (if c == '.' then (dots + 1) % 65536 else dots) ((len + 1) % 65536) := by
        simp [ipLoop, hc]
      rw [hstep]
      by_cases hdot : c = '.'
      · rw [if_pos (by simp [hdot]), ih, toShort_mod_add, toShort_mod_add,
          show dots + 1 + cs.count '.' = dots + (cs.count '.' + 1) from by omega,
          show len + 1 + cs.length = len + (cs.length + 1) from by omega]
        simp only [List.mem_cons, List.count_cons, List.length_cons, hdot,
          beq_self_eq_true, if_true]
        constructor
        · rintro ⟨ha, h3, h15⟩
          refine ⟨?_, h3, h15⟩
          rintro x (rfl | hx)
          · exact Or.inr rfl
          · exact ha x hx
        · rintro ⟨ha, h3, h15⟩
          exact ⟨fun x hx => ha x (Or.inr hx), h3, h15⟩
      · rw [if_neg (by simp [hdot]), ih, toShort_mod_add,
          show len + 1 + cs.length = len + (cs.length + 1) from by omega]
        simp only [List.mem_cons, List.count_cons, List.length_cons]
        have hcount : (if c == '.' then 1 else 0) = 0 := by simp [hdot]
        rw [hcount, Nat.add_zero]
        constructor
        · rintro ⟨ha, h3, h15⟩
          refine ⟨?_, h3, h15⟩
          rintro x (rfl | hx)
          · rcases Bool.or_eq_true_iff.mp hc with h | h
            · exact Or.inl h
            · exact Or.inr (by simpa using h)
          · exact ha x hx
        · rintro ⟨ha, h3, h15⟩
          exact ⟨fun x hx => ha x (Or.inr hx), h3, h15⟩
    · obtain ⟨hd, hp⟩ : c.isDigit = false ∧ ¬c = '.' := by simpa using hc
      have hstep : ipLoop (c :: cs) dots len = false := by
        simp [ipLoop, hd, hp]
      rw [hstep]
      simp only [Bool.false_eq_true, false_iff]
      rintro ⟨ha, -, -⟩
      rcases ha c (List.mem_cons_self c cs) with h | h
      · rw [hd] at h
        exact absurd h (by simp)
      · exact hp h

/-- C3 (amended): `is_IP` accepts a token if and only if its FIRST
character is `'-'` (not only the exact token `-`), or the token
consists only of digits and `'.'` and its dot count and length, read
as the source's wrapped 16-bit signed `short` counters, satisfy
`dots == 3` and `len <= 15`.  For tokens shorter than 32768 characters
this is exactly "three dots and at most 15 characters"; longer tokens
can be accepted through wraparound (a 40000-character token has
wrapped length `-25536 <= 15`). -/
theorem c3_is_IP_iff (s : String) :
    is_IP s = true ↔
      (charAt s 0 = '-' ∨
       ((∀ c ∈ s.data, c.isDigit = true ∨ c = '.') ∧
        toShort (s.data.count '.') = 3 ∧ toShort s.data.length ≤ 15)) := by
  by_cases h0 : charAt s 0 = '-'
  · simp [is_IP, h0]
  · have his : is_IP s = ipLoop s.data 0 0 := by
      simp [is_IP, h0]
    rw [his, ipLoop_iff]
    simp [h0]

/-- Demonstration that the wrapped 16-bit counters matter: a
40000-character token of digits with exactly three dots is ACCEPTED by
`is_IP`, because the length counter wraps to `-25536 <= 15` (so even
the over-15-characters clause of the original claim fails on the real
program for over-long tokens). -/
theorem is_IP_wrap_accepts_overlong :
    is_IP (String.mk ('9' :: '.' :: '9' :: '.' :: '9' :: '.' ::
      List.replicate 39994 '9')) = true := by
  have hchar : ¬(charAt (String.mk ('9' :: '.' :: '9' :: '.' :: '9' :: '.' ::
      List.replicate 39994 '9')) 0 == '-') = true := by decide
  have his : is_IP (String.mk ('9' :: '.' :: '9' :: '.' :: '9' :: '.' ::
      List.replicate 39994 '9')) =
      ipLoop ('9' :: '.' :: '9' :: '.' :: '9' :: '.' ::
        List.replicate 39994 '9') 0 0 := by
    unfold is_IP
    rw [if_neg hchar]
  rw [his, ipLoop_iff]
  refine ⟨?_, ?_, ?_⟩
  · intro c hc
    simp only [List.mem_cons] at hc
    rcases hc with rfl | rfl | rfl | rfl | rfl | rfl | hc
    · exact Or.inl rfl
    · exact Or.inr rfl
    · exact Or.inl rfl
    · exact Or.inr rfl
    · exact Or.inl rfl
    · exact Or.inr rfl
    · rw [List.eq_of_mem_replicate hc]
      exact Or.inl rfl
  · have hrep : (List.replicate 39994 '9').count '.' = 0 := by
      rw [List.count_replicate]
      decide
    have hcnt : ('9' :: '.' :: '9' :: '.' :: '9' :: '.' ::
        List.replicate 39994 '9').count '.' = 3 := by
      simp only [List.count_cons, hrep]
      decide
    rw [Nat.zero_add, hcnt]
    decide
  · have hrep : (List.replicate 39994 '9').length = 39994 := by
      rw [List.length_replicate]
    have hlen : ('9' :: '.' :: '9' :: '.' :: '9' :: '.' ::
        List.replicate 39994 '9').length = 40000 := by
      rw [List.length_cons, List.length_cons, List.length_cons, List.length_cons,
        List.length_cons, List.length_cons, hrep]
    rw [Nat.zero_add, hlen]
    decide

/-- C4 counterexample: in strict mode, a line whose content-length token
`abc` is non-numeric and which ends immediately after that token is
ACCEPTED, with `abc` committed to the record: the end-of-line commit
(`if (it+1 == line.end() && !token.empty()) tokens.push_back(token);`)
pushes the pending token without calling `validate`, contrary to the
claim. -/
theorem c4_counterexample :
    is_numeric "abc" = false ∧
    scanCLF false 0 "1.2.3.4 - - [x] \"GET / HTTP/1.0\" 200 abc" =
      .ok ["1.2.3.4", "-", "-", "-", "GET", "/", "HTTP/1.0", "200", "abc"] :=
  ⟨rfl, rfl⟩

/-- C4 (amended): in a simple delimited-field state, a token committed
by a SPACE delimiter is validated before being appended — a failing
validator aborts the line with its reason, a passing one appends the
token and advances the state; but a token committed by the END-OF-LINE
rule is appended without validation (the third conjunct: the last
character extends the pending token and the result is pushed with no
`validate` call, whatever its content). -/
theorem c4_delimiter_commit_validates :
    (∀ (b : Bool) (tz : Int) (isLast : Bool) (prev : Option Char) (s : State)
       (tok : List Char) (toks : List String) (e : String),
       simpleState s = true → tok ≠ [] → validate b s (String.mk tok) = .error e →
       scanStep b tz ' ' isLast prev s tok toks = .error e) ∧
    (∀ (b : Bool) (tz : Int) (isLast : Bool) (prev : Option Char) (s s' : State)
       (tok : List Char) (toks : List String),
       simpleState s = true → tok ≠ [] → validate b s (String.mk tok) = .ok s' →
       scanStep b tz ' ' isLast prev s tok toks = .ok (s', [], toks ++ [String.mk tok])) ∧
    (∀ (b : Bool) (tz : Int) (prev : Option Char) (s : State)
       (tok : List Char) (toks : List String) (c : Char),
       simpleState s = true → c ≠ ' ' → c ≠ ',' →
       scanStep b tz c true prev s tok toks =
         .ok (s, tok ++ [c], toks ++ [String.mk (tok ++ [c])])) := by
  refine ⟨?_, ?_, ?_⟩
  · intro b tz isLast prev s tok toks e hs htok hval
    cases s <;> simp_all [scanStep, commitToken, simpleState]
  · intro b tz isLast prev s s' tok toks hs htok hval
    cases s <;> simp_all [scanStep, commitToken, simpleState]
  · intro b tz prev s tok toks c hs hc1 hc2
    cases s <;> simp_all [scanStep, simpleState]

/-- Witness for C4's amended theorem: a non-numeric content-length
committed by a space is rejected; a numeric one is appended; the
end-of-line commit appends without validation. -/
theorem c4_witness :
    scanStep false 0 ' ' false none .CONTENT ['a'] [] = .error "CONTENT is not numeric." ∧
    scanStep false 0 ' ' false none .CONTENT ['7'] [] =
      .ok (.REFERER, [], [] ++ [String.mk ['7']]) ∧
    scanStep false 0 'z' true none .CONTENT ['a'] [] =
      .ok (.CONTENT, ['a'] ++ ['z'], [] ++ [String.mk (['a'] ++ ['z'])]) :=
  ⟨c4_delimiter_commit_validates.1 false 0 false none .CONTENT ['a'] []
      "CONTENT is not numeric." (by decide) (by decide) rfl,
   c4_delimiter_commit_validates.2.1 false 0 false none .CONTENT .REFERER ['7'] []
      (by decide) (by decide) rfl,
   c4_delimiter_commit_validates.2.2 false 0 none .CONTENT ['a'] [] 'z'
      (by decide) (by decide) (by decide)⟩

/-- C5 counterexample: with two consecutive commas in the Address
state, the comma branch (`tokens.push_back(token); token.clear();`)
runs with an EMPTY token, so the empty token IS committed to the
record, contrary to the claim that empty tokens between consecutive
delimiters are never committed. -/
theorem c5_counterexample :
    scanCLF false 0 "1.2.3.4,,5.6.7.8 " = .ok ["1.2.3.4", "", "5.6.7.8"] :=
  rfl

/-- C5 (amended): in the Address state, a comma ALWAYS commits the
current token as an additional address entry, without validation and
without advancing the state — including an empty token when the comma
immediately follows another delimiter; empty tokens at space
delimiters, and at commas outside the Address state, are skipped. -/
theorem c5_address_comma_commit :
    (∀ (b : Bool) (tz : Int) (isLast : Bool) (prev : Option Char)
       (tok : List Char) (toks : List String),
       scanStep b tz ',' isLast prev .IP tok toks =
         .ok (.IP, [], toks ++ [String.mk tok])) ∧
    (∀ (b : Bool) (tz : Int) (isLast : Bool) (prev : Option Char) (s : State)
       (toks : List String), simpleState s = true →
       scanStep b tz ' ' isLast prev s [] toks = .ok (s, [], toks)) ∧
    (∀ (b : Bool) (tz : Int) (isLast : Bool) (prev : Option Char) (s : State)
       (toks : List String), simpleState s = true → s ≠ .IP →
       scanStep b tz ',' isLast prev s [] toks = .ok (s, [], toks)) := by
  refine ⟨?_, ?_, ?_⟩
  · intro b tz isLast prev tok toks
    simp [scanStep]
  · intro b tz isLast prev s toks hs
    cases s <;> simp_all [scanStep, simpleState]
  · intro b tz isLast prev s toks hs hip
    cases s <;> simp_all [scanStep, simpleState]

/-- Witness for C5's amended theorem: a comma commits the empty token
in the Address state; an empty token at a space, and at a comma in the
ClientIdentity state, is skipped. -/
theorem c5_witness :
    scanStep false 0 ',' false none .IP [] [] = .ok (.IP, [], [] ++ [String.mk []]) ∧
    scanStep false 0 ' ' false none .CLIENT [] [] = .ok (.CLIENT, [], []) ∧
    scanStep false 0 ',' false none .CLIENT [] [] = .ok (.CLIENT, [], []) :=
  ⟨c5_address_comma_commit.1 false 0 false none [] [],
   c5_address_comma_commit.2.1 false 0 false none .CLIENT [] (by decide),
   c5_address_comma_commit.2.2 false 0 false none .CLIENT [] (by decide) (by decide)⟩

/-- C6 counterexample: the line `1.2.3.4 xyz` has client-identity token
`xyz`, different from `-`, yet in strict mode the line is ACCEPTED and
emits one record: the line ends while the token is pending, and the
end-of-line commit pushes it without validation, so the promised
rejection never happens. -/
theorem c6_counterexample :
    "xyz" ≠ "-" ∧ scanCLF false 0 "1.2.3.4 xyz" = .ok ["1.2.3.4", "xyz"] :=
  ⟨by decide, rfl⟩

/-- C6 (amended): in strict mode, whenever the client-identity token is
committed by a delimiter, any value other than exactly `-` raises
`Client identity unsupported.` and the line is rejected, emitting zero
output records (second conjunct: a full line whose client-identity
token is followed by a space); but a line that ends immediately after
the client-identity token commits it without validation and emits one
record (third conjunct). -/
theorem c6_client_identity_rejection :
    (∀ t : String, t ≠ "-" →
       validate false .CLIENT t = .error "Client identity unsupported.") ∧
    (∀ tz : Int,
       scanCLF false tz "1.2.3.4 xyz " = .error "Client identity unsupported.") ∧
    (∀ tz : Int, scanCLF false tz "1.2.3.4 xyz" = .ok ["1.2.3.4", "xyz"]) := by
  refine ⟨?_, fun tz => rfl, fun tz => rfl⟩
  intro t ht
  simp [validate, ht]

/-- Witness for C6's amended theorem at concrete inputs. -/
theorem c6_witness :
    validate false .CLIENT "ident" = .error "Client identity unsupported." ∧
    scanCLF false 0 "1.2.3.4 xyz " = .error "Client identity unsupported." ∧
    scanCLF false 0 "1.2.3.4 xyz" = .ok ["1.2.3.4", "xyz"] :=
  ⟨c6_client_identity_rejection.1 "ident" (by decide),
   c6_client_identity_rejection.2.1 0,
   c6_client_identity_rejection.2.2 0⟩

/-- C7: with the permissive flag set, `validate` never throws: for every
state and every token it returns `Except.ok` of the next state in the
fixed order (the `IF_VALID` short-circuit makes every check succeed
without evaluating the predicate), and a strict-format line whose
status-code token `abc` is non-numeric still produces exactly one
output record with the code field passed through unvalidated (the
timestamp position shows the normalizer still ran: its failed
conversion `-` is committed). -/
theorem c7_permissive_mode :
    (∀ (s : State) (t : String), validate true s t = .ok (stateSucc s)) ∧
    (∀ tz : Int,
       scanCLF true tz "1.2.3.4 - - [x] \"GET / HTTP/1.0\" abc 0" =
         .ok ["1.2.3.4", "-", "-", "-", "GET", "/", "HTTP/1.0", "abc", "0"]) := by
  refine ⟨?_, fun tz => rfl⟩
  intro s t
  cases s <;> rfl

/-- Helper: an `if` returning `ok` or `error` satisfies the
ok-successor-or-error disjunction. -/
theorem ite_ok_or_error {c : Prop} [Decidable c] (x y : State) (m : String)
    (hxy : x = y) :
    (if c then Except.ok x else Except.error m) = (Except.ok y : Except String State) ∨
    ∃ e, (if c then Except.ok x else Except.error m) =
      (Except.error e : Except String State) := by
  by_cases h : c
  · simp [h, hxy]
  · exact Or.inr ⟨m, by simp [h]⟩

/-- C8: state transition is monotonic.  Every call to `validate` either
throws, or returns exactly the next variant in the fixed order
`stateSucc` (which increments the enum index by one, capped at the
final `AGENT` state, which maps to itself) — no transition moves
backward or skips a variant.  The last conjunct: a line with no
referer/user-agent after the content length is accepted, so absence of
input after ContentLength is not an error. -/
theorem c8_state_monotonic :
    (∀ (b : Bool) (s : State) (t : String),
       validate b s t = .ok (stateSucc s) ∨ ∃ e, validate b s t = .error e) ∧
    (∀ s : State, stateIdx (stateSucc s) = min (stateIdx s + 1) 10) ∧
    stateSucc .AGENT = .AGENT ∧
    (∀ tz : Int,
       scanCLF false tz "5.6.7.8 - - [x] \"GET /a HTTP/1.1\" 404 17" =
         .ok ["5.6.7.8", "-", "-", "-", "GET", "/a", "HTTP/1.1", "404", "17"]) := by
  refine ⟨?_, ?_, rfl, fun tz => rfl⟩
  · intro b s t
    cases s <;> simp only [validate, stateSucc] <;>
      first
        | exact Or.inl rfl
        | exact Or.inl trivial
        | exact ite_ok_or_error _ _ _ rfl
  · intro s
    cases s <;> rfl

/-- Helper: the output of `processStream` at the position of a given
line is the scan of that line, whatever comes before or after it. -/
theorem processStream_getD (b : Bool) (tz : Int) (l : String) :
    ∀ pre post : List String,
      (processStream b tz (pre ++ l :: post)).getD pre.length (Except.ok []) =
        scanCLF b tz l := by
  intro pre
  induction pre with
  | nil => intro post; rfl
  | cons p pre ih =>
    intro post
    simpa only [List.cons_append, processStream, List.length_cons,
      List.getD_cons_succ] using ih post

/-- C9: per-line processing is deterministic and stateless across
calls: for a fixed permissive flag and host timezone offset, the output
the driver produces for a line `l` is the same whichever and however
many other lines are processed around it — it always equals
`scanCLF b tz l`. -/
theorem c9_per_line_deterministic (b : Bool) (tz : Int)
    (pre1 post1 pre2 post2 : List String) (l : String) :
    (processStream b tz (pre1 ++ l :: post1)).getD pre1.length (Except.ok []) =
    (processStream b tz (pre2 ++ l :: post2)).getD pre2.length (Except.ok []) := by
  rw [processStream_getD, processStream_getD]

/-- Helper: once at least one character has been consumed, every
configuration in the scan trace carries a `some` previous character
(the recursive call always passes `some c`). -/
theorem scanTrace_prev_some (b : Bool) (tz : Int) :
    ∀ (cs : List Char) (c0 : Char) (st : State) (tok : List Char)
      (toks : List String) (p : State × Option Char),
      p ∈ scanTrace b tz cs (some c0) st tok toks → p.2 ≠ none := by
  intro cs
  induction cs with
  | nil =>
    intro c0 st tok toks p hp
    simp [scanTrace] at hp
  | cons c rest ih =>
    intro c0 st tok toks p hp
    cases hstep : scanStep b tz c rest.isEmpty (some c0) st tok toks with
    | error e =>
      simp only [scanTrace, hstep] at hp
      simp at hp
      rw [hp]
      simp
    | ok r =>
      obtain ⟨s', t', ts'⟩ := r
      simp only [scanTrace, hstep] at hp
      rcases List.mem_cons.mp hp with rfl | hp'
      · simp
      · exact ih c s' t' ts' p hp'

/-- C10: the scan never evaluates the one-character lookback `*(it-1)`
at the first character of a line: every traced configuration whose
state is one of the quote-handling states (Method, Path, Protocol,
Referer, UserAgent — the arms that read the previous character) has a
`some` previous character.  The initial configuration is `(IP, none)`
and `IP` is not a quote state; every later configuration has a
consumed character behind it. -/
theorem c10_lookback_safe (b : Bool) (tz : Int) (line : String)
    (p : State × Option Char)
    (hp : p ∈ scanTrace b tz line.data none .IP [] [])
    (hq : quoteState p.1 = true) : p.2 ≠ none := by
  cases hline : line.data with
  | nil =>
    rw [hline] at hp
    simp [scanTrace] at hp
  | cons c rest =>
    rw [hline] at hp
    cases hstep : scanStep b tz c rest.isEmpty none .IP [] [] with
    | error e =>
      simp only [scanTrace, hstep] at hp
      simp at hp
      rw [hp] at hq
      simp [quoteState] at hq
    | ok r =>
      obtain ⟨s', t', ts'⟩ := r
      simp only [scanTrace, hstep] at hp
      rcases List.mem_cons.mp hp with rfl | hp'
      · simp [quoteState] at hq
      · exact scanTrace_prev_some b tz rest c s' t' ts' p hp'

/-- Witness for C10: on the line `- - - [] a` the scanner reaches the
quote-handling state `URL_METHOD`, and that configuration indeed has a
`some` previous character. -/
theorem c10_witness :
    ((State.URL_METHOD, some ']') : State × Option Char).2 ≠ none :=
  c10_lookback_safe false 0 "- - - [] a" (State.URL_METHOD, some ']')
    (by decide) (by decide)

end Clf2tab
